import Mathlib

/-!
Verification of the wine-label recognition pipeline.

The development shallowly embeds the pipeline's source modules:
`wineDatabase.ts` (catalog matcher), `AIVisionService.ts` (provider
adapters, response parser, analysis confidence), `ImageProcessor.ts`
(image validation) and `WineRecognitionService.ts` (orchestrator,
blended confidence, wine synthesis).

Modelling conventions, fixed once here:
* JavaScript strings are modelled by `String`; character-level
  operations go through `String.toList` (`Str := List Char`).
  `toLowerCase` is modelled character-wise via `Char.toLower`
  (ASCII case mapping).
* Optional string fields (`alcoholContent?`, `wineType?`, `source?`,
  …) are modelled as possibly empty strings: in every use site the
  source only tests JS truthiness, under which `undefined` and `""`
  behave identically.
* `Math.floor` over the non-negative quantities involved is `Nat.floor`
  over `ℚ`; JS numeric arithmetic is modelled by exact arithmetic.
* Effects (network replies, `Math.random` jitter, `Date.now`-based ids)
  are passed in explicitly as parameters, so every function is pure and
  executable.
-/

namespace WineExpert

/-- A JS string viewed as its sequence of characters. -/
abbrev Str := List Char

/-- `text.toLowerCase()`, character-wise ASCII lowering. -/
def jsToLower (s : Str) : Str := s.map Char.toLower

/-- `hay.includes(needle)` — `needle` occurs contiguously inside `hay`
(true when `needle` is empty, as in JS). -/
def seqContains : (hay needle : Str) → Bool
  | [], needle => needle.isEmpty
  | h :: t, needle => needle.isPrefixOf (h :: t) || seqContains t needle

/-- `hay.includes(needle)` on `String`s. -/
def strContains (hay needle : String) : Bool :=
  seqContains hay.toList needle.toList

/-- `text.split(sep)` for a one-character separator: every occurrence
splits, empty pieces are kept (`"".split(c) = [""]`, `"a  b".split(' ')
= ["a", "", "b"]`). -/
def splitOnChar (sep : Char) : Str → List Str
  | [] => [[]]
  | c :: cs =>
    if c = sep then [] :: splitOnChar sep cs
    else
      match splitOnChar sep cs with
      | [] => [[c]]
      | t :: ts => (c :: t) :: ts

/-- `term.replace(/[^a-z0-9]/g, '')` — keep only ASCII lower-case
letters and digits. -/
def stripNonAlnum (s : Str) : Str :=
  s.filter (fun c => (decide ('a' ≤ c) && decide (c ≤ 'z')) ||
                     (decide ('0' ≤ c) && decide (c ≤ '9')))

/-- `line.trim()` — strip whitespace from both ends. -/
def trimCh (s : Str) : Str :=
  ((s.dropWhile Char.isWhitespace).reverse.dropWhile Char.isWhitespace).reverse

/-! ### Data model (`types/Wine.ts`, `AIVisionService.ts`) -/

/-- `Wine.tastingNotes` (types/Wine.ts). -/
structure TastingNotes where
  appearance : String
  aroma : String
  taste : String
  finish : String
  deriving DecidableEq, Repr

/-- The `Wine` interface (types/Wine.ts).  `price?` is `Option`;
`source?` is a string, `""` standing for `undefined`. -/
structure Wine where
  id : String
  name : String
  producer : String
  vintage : Int
  region : String
  country : String
  grapeVarieties : List String
  rating : Nat
  price : Option Nat
  description : String
  imageUrl : String
  tastingNotes : TastingNotes
  foodPairings : List String
  servingTemperature : String
  source : String
  deriving DecidableEq, Repr

/-- `WineLabelAnalysis.additionalInfo` (AIVisionService.ts); the three
optional tags, `""` standing for `undefined`. -/
structure AdditionalInfo where
  wineType : String
  appellation : String
  classification : String
  deriving DecidableEq, Repr

/-- The `WineLabelAnalysis` interface (AIVisionService.ts). -/
structure WineLabelAnalysis where
  wineName : String
  producer : String
  vintage : String
  region : String
  grapeVarieties : List String
  alcoholContent : String
  confidence : Nat
  extractedText : String
  additionalInfo : AdditionalInfo
  deriving DecidableEq, Repr

/-- The `WineSearchResult` interface (types/Wine.ts): the pipeline's
MatchResult. -/
structure WineSearchResult where
  wine : Option Wine
  confidence : Nat
  extractedText : String
  deriving DecidableEq, Repr

/-! ### Catalog (`data/wineDatabase.ts`) -/

/-- Catalog entry 1 of `mockWineDatabase`. -/
def opusOneEntry : Wine :=
  { id := "1"
    name := "Opus One"
    producer := "Opus One Winery"
    vintage := 2018
    region := "Napa Valley"
    country := "USA"
    grapeVarieties := ["Cabernet Sauvignon", "Merlot", "Petit Verdot", "Cabernet Franc"]
    price := some 450
    rating := 96
    description := "Exceptional Bordeaux-style blend showcasing Napa Valley terroir with complex flavors and elegant structure."
    tastingNotes :=
      { appearance := "Deep ruby red with purple highlights"
        aroma := "Complex aromas of blackcurrant, cedar, vanilla, and tobacco"
        taste := "Full-bodied with rich flavors of dark fruit, chocolate, and spices"
        finish := "Long and elegant finish with silky tannins" }
    foodPairings := ["Grilled ribeye steak", "Lamb with rosemary", "Aged cheeses", "Dark chocolate"]
    servingTemperature := "60-65°F (16-18°C)"
    imageUrl := "/images/opus-one.jpg"
    source := "database" }

/-- Catalog entry 2 of `mockWineDatabase`. -/
def domPerignonEntry : Wine :=
  { id := "2"
    name := "Dom Pérignon Vintage"
    producer := "Moët & Chandon"
    vintage := 2012
    region := "Champagne"
    country := "France"
    grapeVarieties := ["Chardonnay", "Pinot Noir"]
    price := some 220
    rating := 95
    description := "Iconic Champagne representing the pinnacle of elegance with exceptional balance and refinement."
    tastingNotes :=
      { appearance := "Brilliant golden color with fine, persistent bubbles"
        aroma := "Elegant bouquet of white flowers, citrus, and brioche"
        taste := "Creamy texture with flavors of apple, pear, and mineral notes"
        finish := "Long, refined finish with subtle toasted notes" }
    foodPairings := ["Oysters", "Caviar", "White fish", "Soft cheeses"]
    servingTemperature := "45-50°F (7-10°C)"
    imageUrl := "/images/dom-perignon.jpg"
    source := "database" }

/-- Catalog entry 3 of `mockWineDatabase`. -/
def caymusEntry : Wine :=
  { id := "3"
    name := "Caymus Cabernet Sauvignon"
    producer := "Caymus Vineyards"
    vintage := 2020
    region := "Napa Valley"
    country := "USA"
    grapeVarieties := ["Cabernet Sauvignon"]
    price := some 85
    rating := 92
    description := "Classic Napa Cabernet with excellent balance and accessibility, smooth and supple texture."
    tastingNotes :=
      { appearance := "Deep, dark red with garnet highlights"
        aroma := "Rich aromas of blackberry, cassis, and vanilla oak"
        taste := "Smooth and supple with ripe fruit flavors and well-integrated tannins"
        finish := "Medium to long finish with hints of mocha and spice" }
    foodPairings := ["Grilled steaks", "BBQ ribs", "Mushroom dishes", "Hard cheeses"]
    servingTemperature := "60-65°F (16-18°C)"
    imageUrl := "/images/caymus.jpg"
    source := "database" }

/-- Catalog entry 4 of `mockWineDatabase`. -/
def cloudyBayEntry : Wine :=
  { id := "4"
    name := "Cloudy Bay Sauvignon Blanc"
    producer := "Cloudy Bay"
    vintage := 2022
    region := "Marlborough"
    country := "New Zealand"
    grapeVarieties := ["Sauvignon Blanc"]
    price := some 25
    rating := 90
    description := "Quintessential Marlborough Sauvignon Blanc with excellent purity and vibrant tropical character."
    tastingNotes :=
      { appearance := "Pale straw color with green tints"
        aroma := "Vibrant aromas of passion fruit, gooseberry, and fresh herbs"
        taste := "Crisp and refreshing with tropical fruit flavors and citrus acidity"
        finish := "Clean, zesty finish with mineral undertones" }
    foodPairings := ["Seafood", "Salads", "Goat cheese", "Asian cuisine"]
    servingTemperature := "45-50°F (7-10°C)"
    imageUrl := "/images/cloudy-bay.jpg"
    source := "database" }

/-- Catalog entry 5 of `mockWineDatabase`. -/
def baroloEntry : Wine :=
  { id := "5"
    name := "Barolo Brunate"
    producer := "Marcarini"
    vintage := 2017
    region := "Piedmont"
    country := "Italy"
    grapeVarieties := ["Nebbiolo"]
    price := some 120
    rating := 94
    description := "Traditional Barolo showcasing the elegance of Nebbiolo with complex aromatics and firm structure."
    tastingNotes :=
      { appearance := "Garnet red with orange highlights"
        aroma := "Complex aromas of roses, tar, truffle, and red cherry"
        taste := "Full-bodied with firm tannins, cherry fruit, and earthy undertones"
        finish := "Very long finish with leather and spice notes" }
    foodPairings := ["Truffle dishes", "Braised beef", "Wild game", "Aged Parmesan"]
    servingTemperature := "60-65°F (16-18°C)"
    imageUrl := "/images/barolo-brunate.jpg"
    source := "database" }

/-- `mockWineDatabase` (data/wineDatabase.ts): the in-memory catalog in
iteration order. -/
def mockWineDatabase : List Wine :=
  [opusOneEntry, domPerignonEntry, caymusEntry, cloudyBayEntry, baroloEntry]

/-- The searchable text of a catalog entry:
`[name, producer, region, country, ...grapeVarieties, vintage.toString()].join(' ').toLowerCase()`. -/
def wineSearchableText (wine : Wine) : Str :=
  jsToLower (String.toList (String.intercalate " "
    ([wine.name, wine.producer, wine.region, wine.country] ++
      wine.grapeVarieties ++ [toString wine.vintage])))

/-- `searchWinesByText` (data/wineDatabase.ts): guard against empty
input, lower-case, split on `' '`, drop tokens of length ≤ 2, then keep
every entry some token of which occurs in its searchable text either
verbatim or with non-alphanumerics stripped. -/
def searchWinesByText (text : String) : List Wine :=
  if text = "" then []
  else
    let searchTerms :=
      (splitOnChar ' ' (jsToLower text.toList)).filter (fun term => term.length > 2)
    if searchTerms = [] then []
    else
      mockWineDatabase.filter (fun wine =>
        let searchableText := wineSearchableText wine
        searchTerms.any (fun term =>
          seqContains searchableText term ||
          seqContains searchableText (stripNonAlnum term)))

/-- An entry of `findBestMatch`'s intermediate `scoredResults`. -/
structure ScoredWine where
  wine : Wine
  score : Nat
  deriving DecidableEq, Repr

/-- The relevance score `findBestMatch` assigns a candidate: +10 when
the whole lower-cased query occurs in `name producer` lower-cased, +1
per query token of length > 2 occurring there. -/
def matchScore (text : String) (wine : Wine) : Nat :=
  let searchableText := jsToLower (String.toList (wine.name ++ " " ++ wine.producer))
  let textLower := jsToLower text.toList
  let base : Nat := if seqContains searchableText textLower then 10 else 0
  let words := (splitOnChar ' ' (jsToLower text.toList)).filter (fun w => w.length > 2)
  base + words.countP (fun w => seqContains searchableText w)

/-- Stable insertion for a descending sort: the inserted element `x`
(earlier in the original order than everything already placed) passes
over an element only when that element's score is strictly greater, so
on ties `x` stays first and the original order is kept. -/
def insertDesc (x : ScoredWine) : List ScoredWine → List ScoredWine
  | [] => [x]
  | y :: ys => if x.score < y.score then y :: insertDesc x ys else x :: y :: ys

/-- `scoredResults.sort((a, b) => b.score - a.score)` — stable
descending sort by score. -/
def sortByScoreDesc : List ScoredWine → List ScoredWine
  | [] => []
  | x :: xs => insertDesc x (sortByScoreDesc xs)

/-- `findBestMatch` (data/wineDatabase.ts): guard, search, score each
candidate, sort descending (stable), return the top candidate. -/
def findBestMatch (text : String) : Option Wine :=
  if text = "" then none
  else
    let results := searchWinesByText text
    if results = [] then none
    else
      let scoredResults := results.map (fun wine => ScoredWine.mk wine (matchScore text wine))
      match sortByScoreDesc scoredResults with
      | [] => none
      | s :: _ => some s.wine

/-! ### Analysis confidence (`AIVisionService.calculateConfidence`) -/

/-- The five completeness signals `AIVisionService.calculateConfidence`
inspects (it is called with objects carrying exactly these fields). -/
structure AnalysisSignals where
  wineName : String
  producer : String
  vintage : String
  region : String
  grapeVarieties : List String
  deriving DecidableEq, Repr

/-- Truthiness of `check && (typeof check === 'string' ? check.trim() : check)`
for a string-valued check: non-empty after trimming. -/
def trimmedTruthy (s : String) : Bool := trimCh s.toList ≠ []

/-- `AIVisionService.calculateConfidence`: +20 for each of the five
signals present and non-blank, then `Math.min(95, Math.max(30, score))`. -/
def calculateConfidence (a : AnalysisSignals) : Nat :=
  let checks : List Bool :=
    [trimmedTruthy a.wineName, trimmedTruthy a.producer, trimmedTruthy a.vintage,
     trimmedTruthy a.region, decide (a.grapeVarieties.length > 0)]
  let score := checks.foldl (fun score check => if check then score + 20 else score) 0
  min 95 (max 30 score)

/-! ### Response parser (`AIVisionService.parseWineInfoFromText`) -/

/-- A JS regex word character (`\w`, `\b` boundaries): ASCII
alphanumeric or underscore. -/
def isWordChar (c : Char) : Bool := c.isAlphanum || c = '_'

/-- A match of `(19|20)\d{2}` at the head of the list, including the
trailing `\b` (next character, if any, is not a word character). -/
def yearAt : Str → Option Str
  | d1 :: d2 :: d3 :: d4 :: rest =>
    if (((d1 = '1' && d2 = '9') || (d1 = '2' && d2 = '0')) && d3.isDigit && d4.isDigit &&
        (match rest with | [] => true | c :: _ => !isWordChar c)) then
      some [d1, d2, d3, d4]
    else none
  | _ => none

/-- `line.match(/\b(19|20)\d{2}\b/)`: leftmost occurrence, tracking the
preceding character's word-ness for the leading `\b`. -/
def findYear (prevIsWord : Bool) : Str → Option Str
  | [] => none
  | c :: rest =>
    match (if prevIsWord then none else yearAt (c :: rest)) with
    | some y => some y
    | none => findYear (isWordChar c) rest

/-- The keyword tail `\s*(?:alc|alcohol|vol|abv)` of the alcohol
pattern, case-insensitively; `alcohol` is subsumed by the ordered
alternative `alc`. -/
def alcoholTailMatches (rest : Str) : Bool :=
  let r := jsToLower (rest.dropWhile Char.isWhitespace)
  ["alc", "vol", "abv"].any (fun k => k.toList.isPrefixOf r)

/-- `\.?\d?` continuations of an already-matched digit group, in the
regex engine's greedy backtracking order. -/
def fracCandidates (g : Str) (rest : Str) : List (Str × Str) :=
  (match rest with
   | '.' :: r2 =>
     (match r2 with
      | d :: r3 => if d.isDigit then [(g ++ ['.', d], r3)] else []
      | [] => []) ++ [(g ++ ['.'], r2)]
   | _ => []) ++
  (match rest with
   | d :: r2 => if d.isDigit then [(g ++ [d], r2)] else []
   | _ => []) ++
  [(g, rest)]

/-- All ways the capture group `(\d{1,2}\.?\d?)` can match a prefix of
the list, greedy alternatives first. -/
def alcGroupCandidates : Str → List (Str × Str)
  | [] => []
  | [c1] => if c1.isDigit then fracCandidates [c1] [] else []
  | c1 :: c2 :: rest =>
    if c1.isDigit && c2.isDigit then
      fracCandidates [c1, c2] rest ++ fracCandidates [c1] (c2 :: rest)
    else if c1.isDigit then fracCandidates [c1] (c2 :: rest)
    else []

/-- A match of `(\d{1,2}\.?\d?)%?\s*(?:alc|alcohol|vol|abv)` anchored at
the head of the list, returning the capture group. -/
def alcMatchAt (l : Str) : Option Str :=
  (alcGroupCandidates l).findSome? (fun gr =>
    let pctOpts : List Str :=
      match gr.2 with
      | '%' :: r2 => [r2, gr.2]
      | _ => [gr.2]
    if pctOpts.any alcoholTailMatches then some gr.1 else none)

/-- `line.match(/(\d{1,2}\.?\d?)%?\s*(?:alc|alcohol|vol|abv)/i)`:
leftmost match's capture group. -/
def findAlcohol : Str → Option Str
  | [] => none
  | c :: rest =>
    match alcMatchAt (c :: rest) with
    | some g => some g
    | none => findAlcohol rest

/-- The region keyword list of `parseWineInfoFromText`. -/
def regionKeywords : List String :=
  ["napa valley", "sonoma", "bordeaux", "burgundy", "tuscany", "rioja", "barossa", "marlborough"]

/-- The grape-variety list of `parseWineInfoFromText`. -/
def knownGrapes : List String :=
  ["Cabernet Sauvignon", "Merlot", "Pinot Noir", "Chardonnay", "Sauvignon Blanc",
   "Pinot Grigio", "Riesling", "Syrah", "Shiraz"]

/-- Mutable state of `parseWineInfoFromText`'s line loop. -/
structure ParseState where
  vintage : String
  alcoholContent : String
  region : String
  grapeVarieties : List String
  deriving DecidableEq, Repr

/-- One iteration of `parseWineInfoFromText`'s `for (const line of
lines)` loop: first year found becomes the vintage, first alcohol match
(with `%` appended) the alcohol content, the first line containing a
region keyword is stored whole as the region, and every known grape
substring is appended once. -/
def parseLine (st : ParseState) (line : Str) : ParseState :=
  let vintage :=
    if st.vintage = "" then (findYear false line).elim "" String.mk else st.vintage
  let alcoholContent :=
    if st.alcoholContent = "" then
      (findAlcohol line).elim "" (fun g => String.mk g ++ "%")
    else st.alcoholContent
  let region :=
    if st.region = "" then
      if regionKeywords.any (fun r => seqContains (jsToLower line) r.toList) then
        String.mk line
      else ""
    else st.region
  let grapeVarieties := knownGrapes.foldl
    (fun gs grape =>
      if seqContains (jsToLower line) (jsToLower grape.toList) && !gs.contains grape then
        gs ++ [grape]
      else gs)
    st.grapeVarieties
  { vintage, alcoholContent, region, grapeVarieties }

/-- The trimmed non-empty lines of the reply:
`text.split('\n').map(l => l.trim()).filter(l => l.length > 0)`. -/
def replyLines (text : String) : List Str :=
  ((splitOnChar '\n' text.toList).map trimCh).filter (fun l => l.length > 0)

/-- `AIVisionService.parseWineInfoFromText`: heuristic line-based
extraction; the first line is taken as the wine name and the second as
the producer; the result's confidence comes from
`calculateConfidence`.  The function is total — it always returns a
`WineLabelAnalysis`, with every field possibly empty. -/
def parseWineInfoFromText (text : String) : WineLabelAnalysis :=
  let lines := replyLines text
  let st := lines.foldl parseLine ⟨"", "", "", []⟩
  let wineName := match lines with | l :: _ => String.mk l | [] => ""
  let producer := match lines with | _ :: l :: _ => String.mk l | _ => ""
  { wineName, producer
    vintage := st.vintage
    region := st.region
    grapeVarieties := st.grapeVarieties
    alcoholContent := st.alcoholContent
    extractedText := text
    confidence := calculateConfidence
      ⟨wineName, producer, st.vintage, st.region, st.grapeVarieties⟩
    additionalInfo := ⟨"", "", ""⟩ }

/-! ### Fallback controller (`AIVisionService.analyzeWineLabel`) -/

/-- One exemplar record of `developmentAnalysis`'s `mockWines`. -/
structure MockWineStub where
  wineName : String
  producer : String
  vintage : String
  region : String
  grapeVarieties : List String
  alcoholContent : String
  wineType : String
  appellation : String
  classification : String
  deriving DecidableEq, Repr

/-- `mockWines[0]`. -/
def margauxStub : MockWineStub :=
  { wineName := "Château Margaux"
    producer := "Château Margaux"
    vintage := "2018"
    region := "Margaux, Bordeaux"
    grapeVarieties := ["Cabernet Sauvignon", "Merlot", "Petit Verdot"]
    alcoholContent := "13.5%"
    wineType := "red"
    appellation := "Margaux AOC"
    classification := "Premier Grand Cru Classé" }

/-- `mockWines[1]`. -/
def opusOneStub : MockWineStub :=
  { wineName := "Opus One"
    producer := "Opus One Winery"
    vintage := "2019"
    region := "Napa Valley"
    grapeVarieties := ["Cabernet Sauvignon", "Merlot", "Cabernet Franc"]
    alcoholContent := "14.5%"
    wineType := "red"
    appellation := "Napa Valley AVA"
    classification := "Premium" }

/-- `mockWines[2]`. -/
def domPerignonStub : MockWineStub :=
  { wineName := "Dom Pérignon"
    producer := "Moët & Chandon"
    vintage := "2012"
    region := "Champagne"
    grapeVarieties := ["Chardonnay", "Pinot Noir"]
    alcoholContent := "12.5%"
    wineType := "sparkling"
    appellation := "Champagne AOC"
    classification := "Prestige Cuvée" }

/-- The fixed exemplar set of `developmentAnalysis`. -/
def mockWines : List MockWineStub := [margauxStub, opusOneStub, domPerignonStub]

/-- `AIVisionService.developmentAnalysis` with its two random draws made
explicit: `pick` selects `mockWines[Math.floor(Math.random() * 3)]` and
`jitter` realises `Math.floor(Math.random() * 15)`, so the confidence is
`80 + jitter ∈ [80, 95]`. -/
def developmentAnalysis (pick : Fin 3) (jitter : Fin 15) : WineLabelAnalysis :=
  let w := mockWines.getD pick.val margauxStub
  { wineName := w.wineName
    producer := w.producer
    vintage := w.vintage
    region := w.region
    grapeVarieties := w.grapeVarieties
    alcoholContent := w.alcoholContent
    confidence := 80 + jitter.val
    extractedText := "Mock extracted text for " ++ w.wineName ++ " from " ++ w.producer
    additionalInfo := ⟨w.wineType, w.appellation, w.classification⟩ }

/-- The provider tag of `AIServiceConfig` (config/AIConfig.ts). -/
inductive AIProvider
  | openai | google | gemini | claude | anyrouter | custom | development
  deriving DecidableEq, Repr

/-- `AIServiceConfig` (config/AIConfig.ts); optional strings are `""`
when unset. -/
structure AIServiceConfig where
  provider : AIProvider
  apiKey : String
  endpoint : String
  model : String
  maxImageSize : Nat
  supportedFormats : List String
  timeout : Nat
  enableBatchProcessing : Bool
  enableCaching : Bool
  enableFallback : Bool
  deriving DecidableEq, Repr

/-- `AIVisionService.analyzeWineLabel`: in development mode, return the
stub analysis without touching the network; otherwise dispatch to the
configured adapter (its outcome is the `adapterResult` parameter, the
single outbound call), and on adapter failure either degrade to the stub
analysis (fallback enabled) or propagate an error. -/
def visionAnalyzeWineLabel (config : AIServiceConfig)
    (adapterResult : Except String WineLabelAnalysis)
    (pick : Fin 3) (jitter : Fin 15) : Except String WineLabelAnalysis :=
  if config.provider = .development then
    .ok (developmentAnalysis pick jitter)
  else
    match adapterResult with
    | .ok analysis => .ok analysis
    | .error _ =>
      if config.enableFallback then .ok (developmentAnalysis pick jitter)
      else .error "Failed to analyze wine label with AI vision"

/-! ### Image validation (`ImageProcessor.validateImageFile`) -/

/-- The upload: declared MIME type and byte size. -/
structure JsFile where
  type : String
  size : Nat
  deriving DecidableEq, Repr

/-- The media-type allow-list of `validateImageFile`. -/
def allowedTypes : List String :=
  ["image/jpeg", "image/jpg", "image/png", "image/webp"]

/-- `ImageProcessor.validateImageFile`: reject a type outside the
allow-list, then a size above 10 · 1024 · 1024 bytes; otherwise return
`true`.  Pure — no I/O happens here. -/
def validateImageFile (file : JsFile) : Except String Bool :=
  if !allowedTypes.contains file.type then
    .error "Invalid file type. Please upload a JPEG, PNG, or WebP image."
  else if file.size > 10 * 1024 * 1024 then
    .error "File too large. Please upload an image smaller than 10MB."
  else
    .ok true

/-! ### Orchestrator (`WineRecognitionService`) -/

/-- The region→country table of `inferCountryFromRegion`, in object
insertion order. -/
def regionCountryMap : List (String × String) :=
  [("napa valley", "USA"), ("sonoma", "USA"), ("california", "USA"),
   ("oregon", "USA"), ("washington", "USA"),
   ("bordeaux", "France"), ("burgundy", "France"), ("champagne", "France"),
   ("loire valley", "France"), ("rhône", "France"),
   ("tuscany", "Italy"), ("piedmont", "Italy"), ("veneto", "Italy"),
   ("rioja", "Spain"), ("ribera del duero", "Spain"),
   ("barossa valley", "Australia"), ("margaret river", "Australia"),
   ("marlborough", "New Zealand"), ("central otago", "New Zealand"),
   ("mendoza", "Argentina"), ("maipo valley", "Chile"),
   ("stellenbosch", "South Africa")]

/-- `WineRecognitionService.inferCountryFromRegion`: `"Unknown"` for an
absent region, else the country of the first table key occurring in the
lower-cased region, else `"Unknown"`. -/
def inferCountryFromRegion (region : String) : String :=
  if region = "" then "Unknown"
  else
    let regionLower := jsToLower region.toList
    match regionCountryMap.find? (fun p => seqContains regionLower p.1.toList) with
    | some p => p.2
    | none => "Unknown"

/-- JS `parseInt(s)` restricted to decimal notation: skip leading
whitespace, optional sign, then leading digits; `none` models `NaN`. -/
def jsParseInt (s : String) : Option Int :=
  let core : Str → Option Int := fun cs =>
    let ds := cs.takeWhile Char.isDigit
    if ds = [] then none
    else some (ds.foldl (fun a c => a * 10 + ((c.toNat : Int) - 48)) 0)
  match s.toList.dropWhile Char.isWhitespace with
  | '-' :: rest => (core rest).map (fun n => -n)
  | '+' :: rest => core rest
  | cs => core cs

/-- `parseInt(analysis.vintage) || 2020`: `NaN` and `0` are both falsy
and fall back to 2020. -/
def parsedVintageOr2020 (s : String) : Int :=
  match jsParseInt s with
  | none => 2020
  | some n => if n = 0 then 2020 else n

/-- `WineRecognitionService.estimateRating` with the random jitter
(`Math.floor(Math.random() * 10)`) and the current year made explicit:
premium-keyword and recent-vintage boosts on a base of 75, then
`Math.min(95, Math.max(65, base + jitter))`. -/
def estimateRating (a : WineLabelAnalysis) (jitter : Fin 10) (currentYear : Int) : Nat :=
  let classification := jsToLower a.additionalInfo.classification.toList
  let base := 75
  let base := if seqContains classification "reserve".toList then base + 10 else base
  let base := if seqContains classification "grand".toList then base + 15 else base
  let base := if seqContains (jsToLower a.producer.toList) "château".toList then base + 5 else base
  let base :=
    match jsParseInt a.vintage with
    | some v => if v ≠ 0 ∧ v ≥ currentYear - 5 then base + 5 else base
    | none => base
  min 95 (max 65 (base + jitter.val))

/-- The grape→pairings table of `suggestFoodPairings`. -/
def pairingMap : List (String × List String) :=
  [("cabernet sauvignon", ["grilled steak", "lamb", "aged cheeses", "dark chocolate"]),
   ("merlot", ["roasted chicken", "pork tenderloin", "mushroom dishes", "soft cheeses"]),
   ("pinot noir", ["salmon", "duck", "mushroom risotto", "charcuterie"]),
   ("chardonnay", ["lobster", "roasted chicken", "creamy pasta", "grilled fish"]),
   ("sauvignon blanc", ["goat cheese", "seafood", "salads", "herbs and vegetables"]),
   ("riesling", ["spicy cuisine", "pork", "fruit desserts", "asian dishes"])]

/-- `pairingMap[grapeLower]` — key lookup in the table. -/
def lookupPairings (grapeLower : String) : Option (List String) :=
  (pairingMap.find? (fun p => p.1 = grapeLower)).map Prod.snd

/-- `Set.add`: append unless already present (JS `Set` iterates in
insertion order). -/
def addIfAbsent (acc : List String) (p : String) : List String :=
  if acc.contains p then acc else acc ++ [p]

/-- `WineRecognitionService.suggestFoodPairings`: union the pairing
lists of the recognised grapes into an insertion-ordered set, then
`slice(0, 4)`. -/
def suggestFoodPairings (grapeVarieties : List String) : List String :=
  let pairings := grapeVarieties.foldl
    (fun acc grape =>
      match lookupPairings (String.mk (jsToLower grape.toList)) with
      | some ps => ps.foldl addIfAbsent acc
      | none => acc)
    []
  pairings.take 4

/-- The wine-type→temperature table of `suggestServingTemperature`. -/
def temperatureMap : List (String × String) :=
  [("red", "16-18°C"), ("white", "8-12°C"), ("rosé", "10-12°C"),
   ("sparkling", "6-8°C"), ("dessert", "10-12°C")]

/-- `WineRecognitionService.suggestServingTemperature`: default
`16-18°C` for a blank wine type or a type outside the table. -/
def suggestServingTemperature (wineType : String) : String :=
  if wineType = "" then "16-18°C"
  else
    match temperatureMap.find? (fun p => p.1 = String.mk (jsToLower wineType.toList)) with
    | some p => p.2
    | none => "16-18°C"

/-- The effectful inputs of `createWineFromAIAnalysis` made explicit:
the generated id (`Date.now`/`Math.random`), the AI-generated Chinese
description (a network call with a deterministic local fallback), the
rating jitter and the current year. -/
structure SynthesisEnv where
  id : String
  description : String
  ratingJitter : Fin 10
  currentYear : Int
  deriving DecidableEq, Repr

/-- `WineRecognitionService.createWineFromAIAnalysis`: `null` when the
analysis has no name, no producer and no extracted text; otherwise a
synthesized `Wine` with explicit `Unknown …` placeholders, the country
inferred from the region, derived pairings and serving temperature, and
`source: 'ai-recognized'`. -/
def createWineFromAIAnalysis (a : WineLabelAnalysis) (env : SynthesisEnv) : Option Wine :=
  if a.wineName = "" ∧ a.producer = "" ∧ a.extractedText = "" then none
  else some
    { id := env.id
      name := if a.wineName = "" then "Unknown Wine" else a.wineName
      producer := if a.producer = "" then "Unknown Producer" else a.producer
      vintage := parsedVintageOr2020 a.vintage
      region := if a.region = "" then "Unknown Region" else a.region
      country := inferCountryFromRegion a.region
      grapeVarieties := a.grapeVarieties
      rating := estimateRating a env.ratingJitter env.currentYear
      price := none
      description := env.description
      imageUrl := ""
      tastingNotes :=
        { appearance :=
            if a.additionalInfo.wineType = "" then ""
            else a.additionalInfo.wineType ++ " wine"
          aroma := ""
          taste := ""
          finish := "" }
      foodPairings := suggestFoodPairings a.grapeVarieties
      servingTemperature := suggestServingTemperature a.additionalInfo.wineType
      source := "ai-recognized" }

/-- `WineRecognitionService.calculateAdvancedConfidence`: start from the
analysis confidence; +15 capped at 95 when the candidate is not
AI-synthesized; scale by `0.7 + 0.3 ·` the fraction of the six broader
signals present (`Math.floor` of the product); clamp with
`Math.min(95, Math.max(60, ·))`. -/
def calculateAdvancedConfidence (a : WineLabelAnalysis) (wine : Wine) : Nat :=
  let confidence := a.confidence
  let confidence := if wine.source ≠ "ai-recognized" then min 95 (confidence + 15) else confidence
  let completenessFactors : List Bool :=
    [a.wineName != "", a.producer != "", a.vintage != "", a.region != "",
     decide (a.grapeVarieties.length > 0), a.alcoholContent != ""]
  let completeness : ℚ :=
    (completenessFactors.count true : ℚ) / (completenessFactors.length : ℚ)
  let confidence := Nat.floor ((confidence : ℚ) * (7/10 + 3/10 * completeness))
  min 95 (max 60 confidence)

/-- The pure core of `WineRecognitionService.analyzeWineLabel` after the
analysis has been obtained: synthesize a wine from the analysis; only
when that yields `null`, fall back to `findBestMatch` over the extracted
text; blend the confidence when a wine exists, else keep the analysis
confidence. -/
def recognizeFromAnalysis (a : WineLabelAnalysis) (env : SynthesisEnv) : WineSearchResult :=
  let wine :=
    match createWineFromAIAnalysis a env with
    | some w => some w
    | none => findBestMatch a.extractedText
  let confidence :=
    match wine with
    | some w => calculateAdvancedConfidence a w
    | none => a.confidence
  { wine, confidence
    extractedText := if a.extractedText = "" then "No text extracted" else a.extractedText }

/-- `WineRecognitionService.analyzeWineLabel`: validate the image first;
then consume the provider outcome (the one outbound call, passed in
explicitly); any thrown error is re-raised as the generic
`Failed to analyze wine label`. -/
def recognitionAnalyzeWineLabel (file : JsFile)
    (providerOutcome : Except String WineLabelAnalysis)
    (env : SynthesisEnv) : Except String WineSearchResult :=
  match validateImageFile file with
  | .error _ => .error "Failed to analyze wine label"
  | .ok _ =>
    match providerOutcome with
    | .error _ => .error "Failed to analyze wine label"
    | .ok analysis => .ok (recognizeFromAnalysis analysis env)

/-! ### Spec-side score formulas and counts -/

/-- The six broader completeness signals the blended score inspects:
name, producer, vintage, region, non-empty grape list, alcohol
content. -/
def sixSignalCount (a : WineLabelAnalysis) : Nat :=
  ([a.wineName != "", a.producer != "", a.vintage != "", a.region != "",
    decide (a.grapeVarieties.length > 0), a.alcoholContent != ""] : List Bool).count true

/-- The claim's closed form of the blended match score: optional catalog
boost capped at 95, scaling by the completeness factor
`0.7 + 0.3 · (c/6) = (14 + c)/20` with an integer floor, then a clamp to
`[60, 95]`. -/
def blendedScoreSpec (conf : Nat) (fromCatalog : Bool) (c : Nat) : Nat :=
  let boosted := if fromCatalog then min 95 (conf + 15) else conf
  min 95 (max 60 (boosted * (14 + c) / 20))

/-- How many of the five completeness signals of the analysis scorer are
populated and non-empty. -/
def fiveSignalCount (a : AnalysisSignals) : Nat :=
  ([trimmedTruthy a.wineName, trimmedTruthy a.producer, trimmedTruthy a.vintage,
    trimmedTruthy a.region, decide (a.grapeVarieties.length > 0)] : List Bool).count true

/-! ### Helper lemmas -/

/-- `Math.floor` of `b · (0.7 + 0.3 · (c/6))` over exact rationals is
the natural-number division `b · (14 + c) / 20`. -/
theorem floor_scale_eq (b c : Nat) :
    Nat.floor ((b : ℚ) * (7/10 + 3/10 * ((c : ℚ) / 6))) = b * (14 + c) / 20 := by
  have h : (b : ℚ) * (7/10 + 3/10 * ((c : ℚ) / 6))
      = ((b * (14 + c) : ℕ) : ℚ) / ((20 : ℕ) : ℚ) := by
    push_cast
    ring
  rw [h, Nat.floor_div_nat, Nat.floor_natCast]

/-- The blended score as computed by the code, in closed form. -/
theorem calculateAdvancedConfidence_eq (a : WineLabelAnalysis) (w : Wine) :
    calculateAdvancedConfidence a w
      = blendedScoreSpec a.confidence (w.source != "ai-recognized") (sixSignalCount a) := by
  unfold calculateAdvancedConfidence blendedScoreSpec sixSignalCount
  by_cases hs : w.source = "ai-recognized" <;>
    simp only [hs, ne_eq, not_true_eq_false, if_false, if_true, bne_self_eq_false,
      Bool.false_eq_true, bne_iff_ne, not_false_iff, ite_true, ite_false,
      List.length_cons, List.length_nil] <;>
    rw [show ((0+1+1+1+1+1+1 : ℕ) : ℚ) = ((6:ℕ) : ℚ) by norm_num] <;>
    rw [show ((6:ℕ) : ℚ) = (6:ℚ) by norm_num] <;>
    rw [floor_scale_eq]

/-- The blended score always lands in `[60, 95]`. -/
theorem calculateAdvancedConfidence_bounds (a : WineLabelAnalysis) (w : Wine) :
    60 ≤ calculateAdvancedConfidence a w ∧ calculateAdvancedConfidence a w ≤ 95 := by
  rw [calculateAdvancedConfidence_eq]
  simp only [blendedScoreSpec]
  omega

/-- The `forEach` accumulation of `calculateConfidence`: 20 points per
passing check. -/
theorem foldl_twenty (l : List Bool) (s : Nat) :
    l.foldl (fun score check => if check then score + 20 else score) s
      = s + 20 * l.count true := by
  induction l generalizing s with
  | nil => simp
  | cons b t ih => cases b <;> simp [ih, List.count_cons] <;> ring

/-- The analysis completeness score in closed form. -/
theorem calculateConfidence_eq (a : AnalysisSignals) :
    calculateConfidence a = min 95 (max 30 (20 * fiveSignalCount a)) := by
  simp only [calculateConfidence, fiveSignalCount]
  rw [foldl_twenty, Nat.zero_add]

/-! ### C2 — blended match score -/

/-- C2: for every analysis and every candidate wine, the blended match
score equals the analysis confidence, boosted by 15 (capped at 95)
exactly when the candidate did not come from analysis synthesis, scaled
by the completeness factor `0.7 + 0.3 · (c/6)` over the six broader
signals — a factor within `[0.7, 1]` — floored, and clamped to
`[60, 95]`; hence the blended score always lies in `[60, 95]`. -/
theorem c2_blended_match_score (a : WineLabelAnalysis) (w : Wine) :
    calculateAdvancedConfidence a w
        = blendedScoreSpec a.confidence (w.source != "ai-recognized") (sixSignalCount a)
      ∧ 60 ≤ calculateAdvancedConfidence a w
      ∧ calculateAdvancedConfidence a w ≤ 95
      ∧ (7/10 : ℚ) ≤ 7/10 + 3/10 * ((sixSignalCount a : ℚ) / 6)
      ∧ 7/10 + 3/10 * ((sixSignalCount a : ℚ) / 6) ≤ 1 := by
  refine ⟨calculateAdvancedConfidence_eq a w,
    (calculateAdvancedConfidence_bounds a w).1,
    (calculateAdvancedConfidence_bounds a w).2, ?_, ?_⟩
  · have hc : (0 : ℚ) ≤ (sixSignalCount a : ℚ) := Nat.cast_nonneg _
    nlinarith
  · have hc : (sixSignalCount a : ℚ) ≤ 6 := by
      have := List.count_le_length true
        ([a.wineName != "", a.producer != "", a.vintage != "", a.region != "",
          decide (a.grapeVarieties.length > 0), a.alcoholContent != ""] : List Bool)
      unfold sixSignalCount
      exact_mod_cast this
    nlinarith

/-! ### C3 — analysis completeness score -/

/-- C3: the analysis completeness score is `clamp(20·k, 30, 95)` for `k`
populated signals, hence monotone in `k` and always within `[30, 95]`. -/
theorem c3_completeness_score :
    (∀ a : AnalysisSignals,
        calculateConfidence a = min 95 (max 30 (20 * fiveSignalCount a))
        ∧ 30 ≤ calculateConfidence a ∧ calculateConfidence a ≤ 95)
    ∧ ∀ a b : AnalysisSignals, fiveSignalCount a ≤ fiveSignalCount b →
        calculateConfidence a ≤ calculateConfidence b := by
  refine ⟨fun a => ⟨calculateConfidence_eq a, ?_, ?_⟩, fun a b h => ?_⟩
  · rw [calculateConfidence_eq]; omega
  · rw [calculateConfidence_eq]; omega
  · rw [calculateConfidence_eq, calculateConfidence_eq]; omega

/-- Witness for C3's monotonicity hypothesis at concrete records: an
all-empty record has no signal, a fully populated one has five, and the
scores respect the ordering. -/
theorem c3_completeness_score_witness :
    fiveSignalCount ⟨"", "", "", "", []⟩
        ≤ fiveSignalCount ⟨"Opus One", "Opus One Winery", "2018", "Napa Valley", ["Merlot"]⟩
      ∧ calculateConfidence ⟨"", "", "", "", []⟩
        ≤ calculateConfidence ⟨"Opus One", "Opus One Winery", "2018", "Napa Valley", ["Merlot"]⟩ :=
  ⟨by decide, c3_completeness_score.2 _ _ (by decide)⟩

/-! ### Concrete pipeline inputs used by witnesses and counterexamples -/

/-- A fully populated analysis matching the catalog's first entry, as a
provider could produce it. -/
def opusAnalysis : WineLabelAnalysis :=
  { wineName := "Opus One", producer := "Opus One Winery", vintage := "2018",
    region := "Napa Valley", grapeVarieties := ["Cabernet Sauvignon"],
    alcoholContent := "14.5%", confidence := 95,
    extractedText := "Opus One Winery 2018", additionalInfo := ⟨"red", "", ""⟩ }

/-- A concrete synthesis environment (generated id, description,
rating jitter, current year). -/
def sampleEnv : SynthesisEnv := ⟨"ai-1700000000000-x7k2m9q4p", "fallback description", 3, 2026⟩

/-- An analysis carrying only a wine name — a usable signal, but no
catalog candidate for its (empty) extracted text. -/
def nameOnlyAnalysis : WineLabelAnalysis :=
  { wineName := "Test Wine", producer := "", vintage := "", region := "",
    grapeVarieties := [], alcoholContent := "", confidence := 80,
    extractedText := "", additionalInfo := ⟨"", "", ""⟩ }

/-- The wine `createWineFromAIAnalysis` synthesizes from
`nameOnlyAnalysis` in `sampleEnv`. -/
def nameOnlySynth : Wine :=
  { id := "ai-1700000000000-x7k2m9q4p", name := "Test Wine", producer := "Unknown Producer",
    vintage := 2020, region := "Unknown Region", country := "Unknown", grapeVarieties := [],
    rating := 78, price := none, description := "fallback description", imageUrl := "",
    tastingNotes := ⟨"", "", "", ""⟩, foodPairings := [], servingTemperature := "16-18°C",
    source := "ai-recognized" }

/-! ### Structural lemmas about the orchestrator -/

/-- With any of name, producer or extracted text present, synthesis
succeeds and yields the placeholder-filled record. -/
theorem createWine_some_fields (a : WineLabelAnalysis) (env : SynthesisEnv)
    (h : ¬(a.wineName = "" ∧ a.producer = "" ∧ a.extractedText = "")) :
    ∃ w, createWineFromAIAnalysis a env = some w
      ∧ w.name = (if a.wineName = "" then "Unknown Wine" else a.wineName)
      ∧ w.producer = (if a.producer = "" then "Unknown Producer" else a.producer)
      ∧ w.region = (if a.region = "" then "Unknown Region" else a.region)
      ∧ w.country = inferCountryFromRegion a.region
      ∧ w.source = "ai-recognized" := by
  unfold createWineFromAIAnalysis
  rw [if_neg h]
  exact ⟨_, rfl, rfl, rfl, rfl, rfl, rfl⟩

/-- When synthesis succeeds, the orchestrator returns the synthesized
wine with the blended confidence. -/
theorem recognize_of_createWine_some (a : WineLabelAnalysis) (env : SynthesisEnv) (w : Wine)
    (hw : createWineFromAIAnalysis a env = some w) :
    recognizeFromAnalysis a env =
      { wine := some w, confidence := calculateAdvancedConfidence a w
        extractedText := if a.extractedText = "" then "No text extracted" else a.extractedText } := by
  simp [recognizeFromAnalysis, hw]

/-- With no name, producer or extracted text, the orchestrator returns a
null wine (the catalog fallback searches the empty text and finds
nothing) and the raw analysis confidence. -/
theorem recognize_of_empty_analysis (a : WineLabelAnalysis) (env : SynthesisEnv)
    (h1 : a.wineName = "") (h2 : a.producer = "") (h3 : a.extractedText = "") :
    recognizeFromAnalysis a env =
      { wine := none, confidence := a.confidence, extractedText := "No text extracted" } := by
  have hc : createWineFromAIAnalysis a env = none := by
    unfold createWineFromAIAnalysis
    rw [if_pos ⟨h1, h2, h3⟩]
  simp [recognizeFromAnalysis, hc, h3, findBestMatch]

/-! ### C1 — catalog candidates are not attached to the result -/

/-- C1 fails on the code: for an analysis with a usable
name/producer/text signal whose text matches a catalog entry, the
catalog search does yield that entry (under either search text the
claim contemplates), yet the orchestrator's result carries the
synthesized analysis-derived record, not the catalog entry. -/
theorem c1_counterexample :
    findBestMatch opusAnalysis.extractedText = some opusOneEntry
    ∧ findBestMatch (opusAnalysis.wineName ++ " " ++ opusAnalysis.extractedText) = some opusOneEntry
    ∧ (recognizeFromAnalysis opusAnalysis sampleEnv).wine ≠ some opusOneEntry
    ∧ ((recognizeFromAnalysis opusAnalysis sampleEnv).wine.map Wine.source) = some "ai-recognized" := by
  refine ⟨by decide, by decide, ?_, ?_⟩ <;> decide

/-- C1 (amended): whenever the analysis carries a usable
name/producer/text signal, the orchestrator's wine is the synthesized
analysis-derived record (never a catalog entry); the catalog is
consulted only when no signal exists, in which case the extracted text
is empty and the search yields nothing, so the wine is null. -/
theorem c1_synthesis_precedes_catalog (a : WineLabelAnalysis) (env : SynthesisEnv) :
    (¬(a.wineName = "" ∧ a.producer = "" ∧ a.extractedText = "") →
      ∃ w, (recognizeFromAnalysis a env).wine = some w ∧ w.source = "ai-recognized")
    ∧ ((a.wineName = "" ∧ a.producer = "" ∧ a.extractedText = "") →
      (recognizeFromAnalysis a env).wine = none) := by
  constructor
  · intro h
    obtain ⟨w, hw, _, _, _, _, hsrc⟩ := createWine_some_fields a env h
    rw [recognize_of_createWine_some a env w hw]
    exact ⟨w, rfl, hsrc⟩
  · rintro ⟨h1, h2, h3⟩
    rw [recognize_of_empty_analysis a env h1 h2 h3]

/-- Witness for C1 (amended) at a concrete populated analysis. -/
theorem c1_synthesis_precedes_catalog_witness :
    ∃ w, (recognizeFromAnalysis opusAnalysis sampleEnv).wine = some w
      ∧ w.source = "ai-recognized" :=
  (c1_synthesis_precedes_catalog opusAnalysis sampleEnv).1 (by decide)

/-! ### C4 — the synthesized-record result -/

/-- C4 fails on the code: for a request with no catalog candidate (the
extracted text matches nothing), the synthesized record is returned with
its placeholders, but the MatchResult confidence is the blended score
(here 60), not the analysis completeness score (here 80). -/
theorem c4_counterexample :
    findBestMatch nameOnlyAnalysis.extractedText = none
    ∧ (recognizeFromAnalysis nameOnlyAnalysis sampleEnv).wine = some nameOnlySynth
    ∧ nameOnlySynth.name = "Test Wine" ∧ nameOnlySynth.producer = "Unknown Producer"
    ∧ nameOnlyAnalysis.confidence = 80
    ∧ (recognizeFromAnalysis nameOnlyAnalysis sampleEnv).confidence = 60 := by
  have hw : createWineFromAIAnalysis nameOnlyAnalysis sampleEnv = some nameOnlySynth := by decide
  have hr := recognize_of_createWine_some nameOnlyAnalysis sampleEnv nameOnlySynth hw
  refine ⟨by decide, by rw [hr], by decide, by decide, by decide, ?_⟩
  rw [hr]
  show calculateAdvancedConfidence nameOnlyAnalysis nameOnlySynth = 60
  rw [calculateAdvancedConfidence_eq]
  decide

/-- C4 (amended): when the analysis has a usable signal the orchestrator
returns the synthesized record — unknown name/producer/region filled
with explicit placeholders and country inferred from the region via the
fixed lookup — and the MatchResult confidence is the blended match score
computed against that synthesized record; only when there is no usable
signal at all is the wine null and the raw analysis confidence used. -/
theorem c4_synthesized_record (a : WineLabelAnalysis) (env : SynthesisEnv) :
    (¬(a.wineName = "" ∧ a.producer = "" ∧ a.extractedText = "") →
      ∃ w, (recognizeFromAnalysis a env).wine = some w
        ∧ w.name = (if a.wineName = "" then "Unknown Wine" else a.wineName)
        ∧ w.producer = (if a.producer = "" then "Unknown Producer" else a.producer)
        ∧ w.region = (if a.region = "" then "Unknown Region" else a.region)
        ∧ w.country = inferCountryFromRegion a.region
        ∧ (recognizeFromAnalysis a env).confidence = calculateAdvancedConfidence a w)
    ∧ ((a.wineName = "" ∧ a.producer = "" ∧ a.extractedText = "") →
      (recognizeFromAnalysis a env).wine = none
      ∧ (recognizeFromAnalysis a env).confidence = a.confidence) := by
  constructor
  · intro h
    obtain ⟨w, hw, hn, hp, hrg, hc, _⟩ := createWine_some_fields a env h
    rw [recognize_of_createWine_some a env w hw]
    exact ⟨w, rfl, hn, hp, hrg, hc, rfl⟩
  · rintro ⟨h1, h2, h3⟩
    rw [recognize_of_empty_analysis a env h1 h2 h3]
    exact ⟨rfl, rfl⟩

/-- Witness for C4 (amended) at a concrete analysis with a usable
signal. -/
theorem c4_synthesized_record_witness :
    ∃ w, (recognizeFromAnalysis nameOnlyAnalysis sampleEnv).wine = some w
      ∧ w.name = (if nameOnlyAnalysis.wineName = "" then "Unknown Wine" else nameOnlyAnalysis.wineName)
      ∧ w.producer = (if nameOnlyAnalysis.producer = "" then "Unknown Producer" else nameOnlyAnalysis.producer)
      ∧ w.region = (if nameOnlyAnalysis.region = "" then "Unknown Region" else nameOnlyAnalysis.region)
      ∧ w.country = inferCountryFromRegion nameOnlyAnalysis.region
      ∧ (recognizeFromAnalysis nameOnlyAnalysis sampleEnv).confidence
          = calculateAdvancedConfidence nameOnlyAnalysis w :=
  (c4_synthesized_record nameOnlyAnalysis sampleEnv).1 (by decide)

/-! ### C5 — image precondition -/

/-- Bridge between the Boolean `List.contains` the validator evaluates
and list membership. -/
theorem contains_bridge (s : String) (l : List String) :
    l.contains s = true ↔ s ∈ l := by
  constructor
  · intro h
    exact List.elem_iff.mp h
  · intro h
    exact List.elem_iff.mpr h

/-- C5: an image whose media type is outside the allow-list or whose
size exceeds 10 MiB fails validation, and `analyzeWineLabel` then fails
identically for *every* provider outcome — the result does not depend on
the provider, i.e. no outbound call is consumed; an image satisfying
both preconditions passes validation without raising. -/
theorem c5_image_validation (f : JsFile) :
    ((f.type ∉ allowedTypes ∨ f.size > 10 * 1024 * 1024) →
      (∃ msg, validateImageFile f = .error msg)
      ∧ ∀ (pr : Except String WineLabelAnalysis) (env : SynthesisEnv),
          recognitionAnalyzeWineLabel f pr env = .error "Failed to analyze wine label")
    ∧ (f.type ∈ allowedTypes → f.size ≤ 10 * 1024 * 1024 → validateImageFile f = .ok true) := by
  constructor
  · intro h
    have hv : ∃ msg, validateImageFile f = Except.error msg := by
      by_cases hc : allowedTypes.contains f.type = true
      · have hsz : f.size > 10 * 1024 * 1024 := by
          rcases h with h | h
          · exact absurd ((contains_bridge f.type allowedTypes).mp hc) h
          · exact h
        refine ⟨"File too large. Please upload an image smaller than 10MB.", ?_⟩
        unfold validateImageFile
        rw [hc]
        simp [hsz]
      · rw [Bool.not_eq_true] at hc
        refine ⟨"Invalid file type. Please upload a JPEG, PNG, or WebP image.", ?_⟩
        unfold validateImageFile
        rw [hc]
        simp
    refine ⟨hv, fun pr env => ?_⟩
    obtain ⟨msg, hm⟩ := hv
    unfold recognitionAnalyzeWineLabel
    rw [hm]
  · intro ht hs
    have hc : allowedTypes.contains f.type = true := (contains_bridge f.type allowedTypes).mpr ht
    unfold validateImageFile
    rw [hc]
    simp [show ¬(f.size > 10 * 1024 * 1024) from by omega]

/-- A file with a disallowed media type. -/
def badTypeFile : JsFile := ⟨"application/pdf", 1024⟩

/-- A small JPEG upload satisfying both preconditions. -/
def validJpegFile : JsFile := ⟨"image/jpeg", 2048⟩

/-- Witness for C5 at concrete files: the PDF fails validation and the
whole pipeline errors regardless of a successful provider reply; the
small JPEG validates. -/
theorem c5_image_validation_witness :
    (∃ msg, validateImageFile badTypeFile = .error msg)
    ∧ recognitionAnalyzeWineLabel badTypeFile (.ok opusAnalysis) sampleEnv
        = .error "Failed to analyze wine label"
    ∧ validateImageFile validJpegFile = .ok true :=
  ⟨((c5_image_validation badTypeFile).1 (Or.inl (by decide))).1,
   ((c5_image_validation badTypeFile).1 (Or.inl (by decide))).2 (.ok opusAnalysis) sampleEnv,
   (c5_image_validation validJpegFile).2 (by decide) (by decide)⟩

/-! ### C6 — degraded vs failed provider -/

/-- C6: when a configured (non-development) provider's adapter call
fails, the controller returns the development-mode stub analysis if the
fallback flag is on, and propagates an error if it is off; composed with
the orchestrator on a valid image, the pipeline accordingly returns the
stub-derived MatchResult or fails. -/
theorem c6_fallback_controller (config : AIServiceConfig) (e : String)
    (pick : Fin 3) (jitter : Fin 15) (hp : config.provider ≠ .development) :
    (config.enableFallback = true →
      visionAnalyzeWineLabel config (.error e) pick jitter
        = .ok (developmentAnalysis pick jitter))
    ∧ (config.enableFallback = false →
      visionAnalyzeWineLabel config (.error e) pick jitter
        = .error "Failed to analyze wine label with AI vision")
    ∧ ∀ (f : JsFile) (env : SynthesisEnv), validateImageFile f = .ok true →
        (config.enableFallback = true →
          recognitionAnalyzeWineLabel f (visionAnalyzeWineLabel config (.error e) pick jitter) env
            = .ok (recognizeFromAnalysis (developmentAnalysis pick jitter) env))
        ∧ (config.enableFallback = false →
          recognitionAnalyzeWineLabel f (visionAnalyzeWineLabel config (.error e) pick jitter) env
            = .error "Failed to analyze wine label") := by
  have hok : config.enableFallback = true →
      visionAnalyzeWineLabel config (.error e) pick jitter
        = .ok (developmentAnalysis pick jitter) := by
    intro hf
    unfold visionAnalyzeWineLabel
    rw [if_neg hp]
    simp [hf]
  have herr : config.enableFallback = false →
      visionAnalyzeWineLabel config (.error e) pick jitter
        = .error "Failed to analyze wine label with AI vision" := by
    intro hf
    unfold visionAnalyzeWineLabel
    rw [if_neg hp]
    simp [hf]
  refine ⟨hok, herr, fun f env hvalid => ⟨fun hf => ?_, fun hf => ?_⟩⟩
  · rw [hok hf]
    unfold recognitionAnalyzeWineLabel
    rw [hvalid]
  · rw [herr hf]
    unfold recognitionAnalyzeWineLabel
    rw [hvalid]

/-- A configured OpenAI provider with fallback enabled. -/
def openaiConfig : AIServiceConfig :=
  { provider := .openai, apiKey := "sk-test", endpoint := "", model := "gpt-4-vision-preview",
    maxImageSize := 10, supportedFormats := allowedTypes, timeout := 30000,
    enableBatchProcessing := false, enableCaching := true, enableFallback := true }

/-- Witness for C6 at a concrete failing OpenAI call: with fallback the
stub analysis is returned; without it the error propagates. -/
theorem c6_fallback_controller_witness :
    visionAnalyzeWineLabel openaiConfig (.error "OpenAI API error: 500") 1 5
      = .ok (developmentAnalysis 1 5)
    ∧ visionAnalyzeWineLabel { openaiConfig with enableFallback := false }
        (.error "OpenAI API error: 500") 1 5
      = .error "Failed to analyze wine label with AI vision" :=
  ⟨(c6_fallback_controller openaiConfig "OpenAI API error: 500" 1 5 (by decide)).1 rfl,
   (c6_fallback_controller { openaiConfig with enableFallback := false }
     "OpenAI API error: 500" 1 5 (by decide)).2.1 rfl⟩

/-! ### C7 — the Opus One best match -/

/-- C7: against the catalog, `findBestMatch "Opus One Winery 2018"`
returns the entry named "Opus One" by "Opus One Winery", and the blended
confidence against that (catalog-sourced) entry is always within
`[60, 95]`.  The ranking keeps catalog iteration order on ties: the
query "napa" scores the Opus One and Caymus candidates equally, and the
stable descending sort returns the earlier catalog entry, Opus One. -/
theorem c7_opus_one_best_match :
    findBestMatch "Opus One Winery 2018" = some opusOneEntry
    ∧ opusOneEntry.name = "Opus One"
    ∧ opusOneEntry.producer = "Opus One Winery"
    ∧ (∀ a : WineLabelAnalysis,
        60 ≤ calculateAdvancedConfidence a opusOneEntry
        ∧ calculateAdvancedConfidence a opusOneEntry ≤ 95)
    ∧ searchWinesByText "napa" = [opusOneEntry, caymusEntry]
    ∧ matchScore "napa" opusOneEntry = matchScore "napa" caymusEntry
    ∧ findBestMatch "napa" = some opusOneEntry :=
  ⟨by decide, rfl, rfl, fun a => calculateAdvancedConfidence_bounds a opusOneEntry,
   by decide, by decide, by decide⟩

/-! ### C8 — the parser never fails -/

/-- C8 fails on the code: the empty reply yields no populated field
under either extraction strategy, yet `parseWineInfoFromText` returns a
`WineLabelAnalysis` (all fields empty, confidence at the floor 30)
instead of failing. -/
theorem c8_counterexample :
    replyLines "" = []
    ∧ parseWineInfoFromText "" =
      { wineName := "", producer := "", vintage := "", region := "", grapeVarieties := [],
        alcoholContent := "", confidence := 30, extractedText := "",
        additionalInfo := ⟨"", "", ""⟩ } := by
  refine ⟨by decide, by decide⟩

/-- C8 (amended): the heuristic parser is total; when the reply has no
non-blank line (so no extraction strategy can populate a field) it
returns the all-empty analysis carrying the raw text and the clamped
floor confidence 30, rather than failing. -/
theorem c8_parser_floor (text : String) (h : replyLines text = []) :
    parseWineInfoFromText text =
      { wineName := "", producer := "", vintage := "", region := "", grapeVarieties := [],
        alcoholContent := "", confidence := 30, extractedText := text,
        additionalInfo := ⟨"", "", ""⟩ } := by
  simp only [parseWineInfoFromText, h]
  rfl

/-- Witness for C8 (amended) at the empty reply. -/
theorem c8_parser_floor_witness :
    parseWineInfoFromText "" =
      { wineName := "", producer := "", vintage := "", region := "", grapeVarieties := [],
        alcoholContent := "", confidence := 30, extractedText := "",
        additionalInfo := ⟨"", "", ""⟩ } :=
  c8_parser_floor "" (by decide)

/-! ### C9 — short-token queries -/

/-- Splitting on a character predicate (used to express the claim's
notion of whitespace-separated tokens). -/
def splitOnPred (p : Char → Bool) : Str → List Str
  | [] => [[]]
  | c :: cs =>
    if p c then [] :: splitOnPred p cs
    else
      match splitOnPred p cs with
      | [] => [[c]]
      | t :: ts => (c :: t) :: ts

/-- The whitespace-separated tokens of a query: maximal runs of
non-whitespace characters. -/
def whitespaceTokens (s : String) : List Str :=
  (splitOnPred Char.isWhitespace s.toList).filter (fun t => t ≠ [])

/-- C9 fails on the code: the query `"a\tb"` consists of
whitespace-separated tokens of length ≤ 2, yet the search is non-empty —
the code splits on the space character only, so the tab-joined token
`"a\tb"` survives, its punctuation-stripped form `"ab"` occurs inside
`"cabernet"`, and catalog entries match. -/
theorem c9_counterexample :
    (whitespaceTokens "a\tb").all (fun t => t.length ≤ 2) = true
    ∧ searchWinesByText "a\tb" ≠ [] := by
  refine ⟨by decide, by decide⟩

/-- ASCII lowering maps no character to the space character besides the
space itself. -/
theorem toLower_eq_space {c : Char} (h : Char.toLower c = ' ') : c = ' ' := by
  simp only [Char.toLower] at h
  split at h
  · next hcond =>
    exfalso
    have hv : (c.toNat + 32).isValidChar := Or.inl (by omega)
    have h32 : (Char.ofNat (c.toNat + 32)).toNat = c.toNat + 32 := by
      rw [Char.ofNat, dif_pos hv]
      rfl
    rw [h] at h32
    have : (' ' : Char).toNat = 32 := rfl
    omega
  · exact h

/-- Lower-casing commutes with splitting on the space character. -/
theorem splitOnChar_space_map_toLower (l : Str) :
    splitOnChar ' ' (jsToLower l) = (splitOnChar ' ' l).map jsToLower := by
  induction l with
  | nil => rfl
  | cons c cs ih =>
    show splitOnChar ' ' (Char.toLower c :: jsToLower cs) = _
    by_cases hc : c = ' '
    · subst hc
      show splitOnChar ' ' (' ' :: jsToLower cs) = _
      unfold splitOnChar
      rw [if_pos rfl, if_pos rfl, ih]
      rfl
    · have hlc : Char.toLower c ≠ ' ' := fun h => hc (toLower_eq_space h)
      unfold splitOnChar
      rw [if_neg hlc, if_neg hc, ih]
      cases hsp : splitOnChar ' ' cs with
      | nil => simp [jsToLower]
      | cons t ts => simp [jsToLower]

/-- C9 (amended): for every query whose *space*-separated tokens (split
on the space character, as the code does) all have length ≤ 2, the
search returns the empty sequence — every token is discarded during
normalization. -/
theorem c9_short_tokens_empty_search (q : String)
    (h : ∀ t ∈ splitOnChar ' ' q.toList, t.length ≤ 2) :
    searchWinesByText q = [] := by
  by_cases hq : q = ""
  · unfold searchWinesByText
    rw [if_pos hq]
  · have hterms :
        (splitOnChar ' ' (jsToLower q.toList)).filter (fun term => term.length > 2) = [] := by
      rw [splitOnChar_space_map_toLower, List.filter_map, List.filter_eq_nil_iff.mpr]
      · exact List.map_nil
      · intro t ht
        simp only [Function.comp_apply, decide_eq_true_eq, not_lt, jsToLower, List.length_map]
        exact h t ht
    unfold searchWinesByText
    rw [if_neg hq]
    simp only [hterms]
    rfl

/-- Witness for C9 (amended) at a concrete short-token query. -/
theorem c9_short_tokens_empty_search_witness :
    searchWinesByText "ca b 20" = [] :=
  c9_short_tokens_empty_search "ca b 20" (by decide)

/-! ### C10 — food-pairing suggestions -/

/-- Set-style insertion preserves distinctness. -/
theorem addIfAbsent_nodup (acc : List String) (p : String) (h : acc.Nodup) :
    (addIfAbsent acc p).Nodup := by
  unfold addIfAbsent
  split
  · exact h
  · next hc =>
    rw [← List.concat_eq_append]
    refine List.Nodup.concat (fun hmem => hc ?_) h
    exact (contains_bridge p acc).mpr hmem

/-- Folding set-style insertions over a pairing list preserves
distinctness. -/
theorem foldl_addIfAbsent_nodup (ps : List String) (acc : List String) (h : acc.Nodup) :
    (ps.foldl addIfAbsent acc).Nodup := by
  induction ps generalizing acc with
  | nil => exact h
  | cons p ps ih => exact ih _ (addIfAbsent_nodup acc p h)

/-- The grape loop of `suggestFoodPairings` keeps the accumulated
pairing set duplicate-free. -/
theorem pairings_fold_nodup (grapes : List String) (acc : List String) (h : acc.Nodup) :
    (grapes.foldl
      (fun acc grape =>
        match lookupPairings (String.mk (jsToLower grape.toList)) with
        | some ps => ps.foldl addIfAbsent acc
        | none => acc)
      acc).Nodup := by
  induction grapes generalizing acc with
  | nil => exact h
  | cons g gs ih =>
    simp only [List.foldl_cons]
    cases hl : lookupPairings (String.mk (jsToLower g.toList)) with
    | none =>
      simp only [hl]
      exact ih _ h
    | some ps =>
      simp only [hl]
      exact ih _ (foldl_addIfAbsent_nodup ps acc h)

/-- When no grape has a pairing entry, the grape loop leaves the
accumulator untouched. -/
theorem pairings_fold_of_no_match (grapes : List String) (acc : List String)
    (h : ∀ g ∈ grapes, lookupPairings (String.mk (jsToLower g.toList)) = none) :
    (grapes.foldl
      (fun acc grape =>
        match lookupPairings (String.mk (jsToLower grape.toList)) with
        | some ps => ps.foldl addIfAbsent acc
        | none => acc)
      acc) = acc := by
  induction grapes generalizing acc with
  | nil => rfl
  | cons g gs ih =>
    simp only [List.foldl_cons, h g (List.mem_cons_self g gs)]
    exact ih _ (fun g hg => h g (List.mem_cons_of_mem _ hg))

/-- C10: the food-pairing suggestion returns at most 4 pairings, never
contains a duplicate (even when several grapes map to the same dish),
and is empty when no grape matches the fixed grape→pairing table. -/
theorem c10_food_pairings (grapes : List String) :
    (suggestFoodPairings grapes).length ≤ 4
    ∧ (suggestFoodPairings grapes).Nodup
    ∧ ((∀ g ∈ grapes, lookupPairings (String.mk (jsToLower g.toList)) = none) →
        suggestFoodPairings grapes = []) := by
  refine ⟨?_, ?_, fun h => ?_⟩
  · exact List.length_take_le 4 _
  · exact List.Nodup.sublist (List.take_sublist 4 _) (pairings_fold_nodup grapes [] List.nodup_nil)
  · unfold suggestFoodPairings
    rw [pairings_fold_of_no_match grapes [] h]
    rfl

/-- Witness for C10 at grapes outside the pairing table. -/
theorem c10_food_pairings_witness :
    suggestFoodPairings ["Gamay", "Tempranillo"] = [] :=
  (c10_food_pairings ["Gamay", "Tempranillo"]).2.2 (by decide)

end WineExpert
